import Mathlib

/-!
Verification of the America's Got Talent voting system (React frontend +
FastAPI backend).  The definitions below are a shallow embedding of the
repository's code: the backend pieces quoted in
`src/manage_workflow/implementation_with_claude.md` and the reference
functions `get_token` / `post_vote` of
`src/manage_workflow/updated_improved_design_v2.md` (section 6), together
with the frontend services `tokenService.js`, `voteService.js` and the
`App.jsx` vote-count display logic.  Machine words are `Nat` with explicit
`% 2^32`; the SHA-256 used by `compute_fingerprint` is implemented in full.
-/

namespace VotingSystem

/-! ## SHA-256 (hashlib.sha256(...).hexdigest() model)

A byte-level implementation of FIPS 180-4 SHA-256 over `List Nat`
(each entry a byte < 256), producing the lowercase hex digest string,
mirroring Python's `hashlib.sha256(x.encode()).hexdigest()`. -/

def M32 : Nat := 4294967296

def rotr32 (x n : Nat) : Nat :=
  ((x >>> n) ||| (x <<< (32 - n))) % M32

def sSig0 (x : Nat) : Nat := (rotr32 x 7) ^^^ (rotr32 x 18) ^^^ (x >>> 3)

def sSig1 (x : Nat) : Nat := (rotr32 x 17) ^^^ (rotr32 x 19) ^^^ (x >>> 10)

def bSig0 (x : Nat) : Nat := (rotr32 x 2) ^^^ (rotr32 x 13) ^^^ (rotr32 x 22)

def bSig1 (x : Nat) : Nat := (rotr32 x 6) ^^^ (rotr32 x 11) ^^^ (rotr32 x 25)

def chF (x y z : Nat) : Nat := (x &&& y) ^^^ ((x ^^^ 4294967295) &&& z)

def majF (x y z : Nat) : Nat := (x &&& y) ^^^ (x &&& z) ^^^ (y &&& z)

/-- Trial-division primality, adequate for the small primes below. -/
def isPrime (n : Nat) : Bool :=
  2 ≤ n && (((List.range n).drop 2).all (fun d => n % d != 0))

/-- The first `k` primes (the 64th prime is 311 < 400). -/
def firstPrimes (k : Nat) : List Nat :=
  ((List.range 400).filter isPrime).take k

/-- Binary-search integer cube root: the largest `r` with `r^3 ≤ x`,
maintaining `lo^3 ≤ x < hi^3`. -/
def icbrtAux (x : Nat) : Nat → Nat → Nat → Nat
  | 0, lo, _ => lo
  | fuel + 1, lo, hi =>
    if hi ≤ lo + 1 then lo
    else
      let mid := (lo + hi) / 2
      if mid * mid * mid ≤ x then icbrtAux x fuel mid hi
      else icbrtAux x fuel lo mid

def icbrt (x : Nat) : Nat := icbrtAux x 128 0 (x + 1)

/-- FIPS 180-4 round constants: the first 32 bits of the fractional parts
of the cube roots of the first 64 primes,
`K_i = floor(cbrt(p_i) * 2^32) mod 2^32`. -/
def sha256K : List Nat :=
  (firstPrimes 64).map (fun p => icbrt (p * 2 ^ 96) % M32)

/-- FIPS 180-4 initial hash value: the first 32 bits of the fractional
parts of the square roots of the first 8 primes. -/
def sha256H0 : List Nat :=
  (firstPrimes 8).map (fun p => Nat.sqrt (p * 2 ^ 64) % M32)

structure Regs where
  ra : Nat
  rb : Nat
  rc : Nat
  rd : Nat
  re : Nat
  rf : Nat
  rg : Nat
  rh : Nat

def initRegs : Regs :=
  ⟨sha256H0.getD 0 0, sha256H0.getD 1 0, sha256H0.getD 2 0, sha256H0.getD 3 0,
   sha256H0.getD 4 0, sha256H0.getD 5 0, sha256H0.getD 6 0, sha256H0.getD 7 0⟩

def sha256Pad (msg : List Nat) : List Nat :=
  let bitLen := msg.length * 8
  let zeros := (119 - msg.length % 64) % 64
  msg ++ [0x80] ++ List.replicate zeros 0 ++
    (List.range 8).map (fun i => (bitLen >>> ((7 - i) * 8)) % 256)

def bytesToWords : List Nat → List Nat
  | a :: b :: c :: d :: rest =>
      (((a * 256 + b) * 256 + c) * 256 + d) :: bytesToWords rest
  | _ => []

def chunks64 (l : List Nat) : List (List Nat) :=
  if h : l = [] then []
  else l.take 64 :: chunks64 (l.drop 64)
termination_by l.length
decreasing_by
  simp only [List.length_drop]
  exact Nat.sub_lt (List.length_pos.mpr h) (by decide)

def schedule (w16 : List Nat) : Array Nat :=
  (List.range 48).foldl (fun w _ =>
    let n := w.size
    let x := (sSig1 (w.getD (n - 2) 0) + w.getD (n - 7) 0 +
              sSig0 (w.getD (n - 15) 0) + w.getD (n - 16) 0) % M32
    w.push x) w16.toArray

def compressChunk (hs : Regs) (w : Array Nat) : Regs :=
  let r := (List.range 64).foldl (fun s i =>
    let t1 := (s.rh + bSig1 s.re + chF s.re s.rf s.rg +
               sha256K.getD i 0 + w.getD i 0) % M32
    let t2 := (bSig0 s.ra + majF s.ra s.rb s.rc) % M32
    ⟨(t1 + t2) % M32, s.ra, s.rb, s.rc, (s.rd + t1) % M32, s.re, s.rf, s.rg⟩) hs
  ⟨(hs.ra + r.ra) % M32, (hs.rb + r.rb) % M32, (hs.rc + r.rc) % M32,
   (hs.rd + r.rd) % M32, (hs.re + r.re) % M32, (hs.rf + r.rf) % M32,
   (hs.rg + r.rg) % M32, (hs.rh + r.rh) % M32⟩

def sha256Words (msg : List Nat) : List Nat :=
  let final := (chunks64 (sha256Pad msg)).foldl
    (fun hs chunk => compressChunk hs (schedule (bytesToWords chunk))) initRegs
  [final.ra, final.rb, final.rc, final.rd, final.re, final.rf, final.rg, final.rh]

def hexDigit (n : Nat) : Char :=
  if n < 10 then Char.ofNat (48 + n) else Char.ofNat (87 + n)

def wordToHex (w : Nat) : String :=
  String.mk ((List.range 8).map (fun i => hexDigit ((w >>> ((7 - i) * 4)) % 16)))

def sha256hex (msg : List Nat) : String :=
  String.join ((sha256Words msg).map wordToHex)

def strBytes (s : String) : List Nat := s.toUTF8.toList.map (fun b => b.toNat)

/-! ## Identity Resolver -/

/-- Embeds `compute_fingerprint` of `backend/main.py` as quoted in
`src/manage_workflow/implementation_with_claude.md` lines 142-150 — the final
version after the localStorage-bypass fix (Critical Security Issue #2):
`hashlib.sha256(visitor_id.encode()).hexdigest()`.  The `local_id` parameter
remains in the signature but is not used, exactly as in the source. -/
def compute_fingerprint (visitor_id local_id : String) : String :=
  sha256hex (strBytes visitor_id)

/-! ## Data model

Tables from `backend/database.py` as documented in
`src/manage_workflow/implementation_with_claude.md` and the design v2 data
model: `vote_sessions` (fingerprint unique, ip_address, is_suspicious,
votes_used), `votes` (fingerprint, contestant, ip_address), `ip_change_logs`
(fingerprint, old_ip, new_ip) and the token store of `get_token`
(`db.save_token(fingerprint, token, expires_at)` / `db.find_token(token)`).
Timestamps are `Nat`. -/

structure VoteSession where
  fingerprint : String
  ip_address : Option String
  is_suspicious : Bool
  votes_used : Nat
deriving DecidableEq

structure VoteRow where
  fingerprint : String
  contestant : String
  ip_address : String
deriving DecidableEq

structure IPChangeLog where
  fingerprint : String
  old_ip : String
  new_ip : String
deriving DecidableEq

structure TokenRec where
  fp : String
  exp : Nat
deriving DecidableEq

structure DB where
  sessions : List VoteSession
  votes : List VoteRow
  ip_changes : List IPChangeLog
  tokens : List (String × TokenRec)
deriving DecidableEq

def emptyDB : DB := ⟨[], [], [], []⟩

/-- `db.find_session(fingerprint)` — `vote_sessions.fingerprint` is unique,
so a first-match lookup. -/
def sessionFor (db : DB) (fingerprint : String) : Option VoteSession :=
  db.sessions.find? (fun s => s.fingerprint == fingerprint)

/-- `db.find_token(token)` / `cache.get(f"tok:-token-")`. -/
def lookupToken (db : DB) (token : String) : Option TokenRec :=
  (db.tokens.find? (fun p => p.1 == token)).map Prod.snd

/-- `db.total_votes(fingerprint)` — count of `votes` rows for a fingerprint. -/
def total_votes (db : DB) (fingerprint : String) : Nat :=
  (db.votes.filter (fun v => v.fingerprint == fingerprint)).length

/-- `db.query(Vote).filter(Vote.ip_address == ip).count()` from the token
endpoint (`votes_from_ip` in `implementation_with_claude.md` lines 179-189). -/
def votes_from_ip (db : DB) (ip : String) : Nat :=
  (db.votes.filter (fun v => v.ip_address == ip)).length

/-- `db.has_voted(fingerprint, contestant)`. -/
def has_voted (db : DB) (fingerprint contestant : String) : Bool :=
  db.votes.any (fun v => v.fingerprint == fingerprint && v.contestant == contestant)

/-- Count of `votes` rows for one (fingerprint, contestant) pair. -/
def pair_votes (db : DB) (fingerprint contestant : String) : Nat :=
  (db.votes.filter
    (fun v => v.fingerprint == fingerprint && v.contestant == contestant)).length

/-- `db.query(IPChangeLog).filter(IPChangeLog.fingerprint == fingerprint).count()`. -/
def ip_change_count (db : DB) (fingerprint : String) : Nat :=
  (db.ip_changes.filter (fun l => l.fingerprint == fingerprint)).length

/-- Constants from `backend/config.py`
(`implementation_with_claude.md` lines 224-226). -/
def MAX_VOTES_PER_DEVICE : Nat := 3

def MAX_VOTES_PER_IP : Nat := 3

def MAX_IP_CHANGES_ALLOWED : Nat := 1

def TOKEN_EXPIRY_MINUTES : Nat := 15

/-! ## Session/Token Manager -/

structure TokenResponse where
  token : String
  fingerprint : String
  expires_at : Nat
  votes_used : Nat
  votes_used_from_ip : Nat
deriving DecidableEq

/-- Core of `get_token` (design v2 section 6, lines 135-142) with the
fingerprint already computed: find-or-create the session, generate a fresh
random token (`secrets.token_hex(16)`, modelled as the `freshToken`
argument), persist it with a 15-minute expiry, and return the session's
counters.  Session creation stores the request IP (spec 4.2: "create one
(count 0, suspicion false, IP = ip)"); the response's vote counters are those
of `TokenResponse` in `implementation_with_claude.md` lines 179-189. -/
def get_token_core (db : DB) (fingerprint ip freshToken : String) (now : Nat) :
    TokenResponse × DB :=
  let found := sessionFor db fingerprint
  let session := found.getD (VoteSession.mk fingerprint (some ip) false 0)
  let db1 := match found with
    | some _ => db
    | none =>
      { db with sessions := db.sessions ++ [VoteSession.mk fingerprint (some ip) false 0] }
  let expires_at := now + TOKEN_EXPIRY_MINUTES * 60
  let db2 := { db1 with tokens := db1.tokens ++ [(freshToken, ⟨fingerprint, expires_at⟩)] }
  (⟨freshToken, fingerprint, expires_at, session.votes_used, votes_from_ip db ip⟩, db2)

/-- `get_token(visitor_id, local_id, ip, ua)` from design v2 section 6: the
fingerprint is derived by `compute_fingerprint` (the final visitorId-only
version; the design doc's older `sha256(visitorId + localId)` line was
superseded by the fix recorded in `implementation_with_claude.md`). -/
def get_token (db : DB) (visitor_id local_id ip freshToken : String) (now : Nat) :
    TokenResponse × DB :=
  get_token_core db (compute_fingerprint visitor_id local_id) ip freshToken now

/-- The token assertion of `post_vote` (design v2 lines 147-148):
`t = cache.get(f"tok:-token-") or db.find_token(token)` followed by
`assert t and t["exp"] > now_utc() and t["fp"] == fingerprint`. -/
def validateToken (db : DB) (token fingerprint : String) (now : Nat) : Bool :=
  match lookupToken db token with
  | none => false
  | some t => decide (now < t.exp) && (t.fp == fingerprint)

/-! ## IP Mobility Tracker & Suspicion Engine -/

def setSessionSuspicious (sessions : List VoteSession) (fingerprint : String) :
    List VoteSession :=
  sessions.map (fun s =>
    if s.fingerprint == fingerprint then { s with is_suspicious := true } else s)

def increment_votes_used (sessions : List VoteSession) (fingerprint : String) :
    List VoteSession :=
  sessions.map (fun s =>
    if s.fingerprint == fingerprint then { s with votes_used := s.votes_used + 1 } else s)

/-- Step 4.3 of the vote endpoint (`implementation_with_claude.md` lines
153-176): when the session's stored IP is present (Python truthiness: not
`None` and not `""`) and differs from the inbound IP, count the fingerprint's
logged IP changes; at or above `maxChanges` set `is_suspicious = True` and
block (HTTP 403) without logging, otherwise append an `IPChangeLog(old, new)`
row.  Returns (blocked?, updated db). -/
def ipChangeCheck (maxChanges : Nat) (db : DB) (fingerprint ip : String) :
    Bool × DB :=
  match sessionFor db fingerprint with
  | none => (false, db)
  | some s =>
    match s.ip_address with
    | none => (false, db)
    | some old =>
      if old = "" ∨ old = ip then (false, db)
      else if maxChanges ≤ ip_change_count db fingerprint then
        (true, { db with sessions := setSessionSuspicious db.sessions fingerprint })
      else
        (false, { db with ip_changes := db.ip_changes ++ [⟨fingerprint, old, ip⟩] })

/-! ## Vote Ledger & Limit Enforcer -/

inductive VoteResult where
  | success
  | invalidToken
  | rateLimited
  | duplicateVote
  | limitReached
  | suspiciousBlocked
deriving DecidableEq

/-- Business rules of `post_vote` (design v2 lines 150-157) after token and
IP-change validation: rate limit, duplicate check, device cap, then record.
The IP cap is modelled from the spec: the `MAX_VOTES_PER_IP` check of
`backend/main.py` is not under `src/` (only described in
`implementation_with_claude.md`), so it follows spec section 4.3 step 5:
`count(Vote, ip) < MAX_VOTES_PER_IP — fail: LimitReached`.  The rate
limiter's verdict (`limiter.too_many(ip=ip, fp=fingerprint)`, a Redis
sliding-window collaborator) is the `tooMany` argument. -/
def post_vote_core (db : DB) (contestant fingerprint ip : String) (tooMany : Bool) :
    VoteResult × DB :=
  if tooMany then (VoteResult.rateLimited, db)
  else if has_voted db fingerprint contestant then (VoteResult.duplicateVote, db)
  else if MAX_VOTES_PER_DEVICE ≤ total_votes db fingerprint then
    (VoteResult.limitReached, db)
  else if MAX_VOTES_PER_IP ≤ votes_from_ip db ip then
    (VoteResult.limitReached, db)
  else
    (VoteResult.success,
      { db with votes := db.votes ++ [⟨fingerprint, contestant, ip⟩],
                sessions := increment_votes_used db.sessions fingerprint })

/-- `post_vote(contestant, fingerprint, token, ip)` (design v2 lines
145-157) combined with the vote endpoint's step 4.3 IP-change detection
(`implementation_with_claude.md` lines 153-176): token assertion first,
then IP-change tracking, then the business rules of `post_vote_core`. -/
def submitVote (db : DB) (contestant fingerprint token ip : String)
    (now : Nat) (tooMany : Bool) : VoteResult × DB :=
  if validateToken db token fingerprint now then
    let r := ipChangeCheck MAX_IP_CHANGES_ALLOWED db fingerprint ip
    if r.1 then (VoteResult.suspiciousBlocked, r.2)
    else post_vote_core r.2 contestant fingerprint ip tooMany
  else (VoteResult.invalidToken, db)

/-- The spec's server-side formula (section 4.3 step 8):
`votes_remaining = min(deviceCap − deviceVotes, ipCap − ipVotes)`,
read from the ledger. -/
def votes_remaining (db : DB) (fingerprint ip : String) : Nat :=
  min (MAX_VOTES_PER_DEVICE - total_votes db fingerprint)
      (MAX_VOTES_PER_IP - votes_from_ip db ip)

/-! ## System operations and reachability -/

inductive Op where
  | tok (visitor_id local_id ip freshToken : String) (now : Nat)
  | vote (contestant fingerprint token ip : String) (now : Nat) (tooMany : Bool)

def applyOp (db : DB) : Op → DB
  | Op.tok v l ip ft now => (get_token db v l ip ft now).2
  | Op.vote c fp t ip now tm => (submitVote db c fp t ip now tm).2

/-- States produced by any sequence of `/token` and `/vote` requests from
the empty database. -/
inductive Reachable : DB → Prop
  | init : Reachable emptyDB
  | step (op : Op) {db : DB} : Reachable db → Reachable (applyOp db op)

/-! ## Frontend: tokenService.js -/

/-- The session object stored in localStorage by
`src/frontend/src/services/tokenService.js` (`initializeToken`, lines
80-87).  `expires_at` is the parsed expiry in milliseconds since epoch;
`none` models a missing/unparseable `expires_at` (JS falsy). -/
structure ClientSession where
  token : String
  fingerprint : String
  expires_at : Option Nat
  votes_used : Nat
  votes_used_from_ip : Nat
  is_suspicious : Bool
deriving DecidableEq

/-- `isTokenExpired(expiresAt)` (tokenService.js lines 41-47):
`if (!expiresAt) return true; return now >= (expiryTime - 30000);` —
a 30-second buffer before the actual expiry.  `Nat` truncated subtraction
agrees with the JS number subtraction here because `now ≥ 0`. -/
def isTokenExpired (expiresAt : Option Nat) (now : Nat) : Bool :=
  match expiresAt with
  | none => true
  | some e => decide (e - 30000 ≤ now)

/-- `ensureValidToken(visitorId, localId)` (tokenService.js lines 96-104):
return the stored session unless it is absent or expired, in which case
`initializeToken` fetches a fresh one from `/token`; that network fetch is
modelled by the `fetched` argument. -/
def ensureValidToken (stored : Option ClientSession) (now : Nat)
    (fetched : ClientSession) : ClientSession :=
  match stored with
  | none => fetched
  | some session =>
    if isTokenExpired session.expires_at now then fetched else session

/-! ## Frontend: App.jsx votes-remaining display -/

/-- The client display computation of `initializeSession`
(`src/unnamed/part_000` lines 100-108): `maxVotes - Math.max(votesUsedDevice,
votesUsedIP)` with `|| 0` defaulting and `maxVotes = 3`.  JS numbers may go
negative, hence `Int`. -/
def appVotesRemaining (votes_used votes_used_from_ip : Option Int) : Int :=
  let votesUsedDevice := votes_used.getD 0
  let votesUsedIP := votes_used_from_ip.getD 0
  let maxVotes : Int := 3
  maxVotes - max votesUsedDevice votesUsedIP

/-- Written from the spec's words (section 4.3 step 8), for comparison with
`appVotesRemaining`: `votes_remaining = min(deviceCap − deviceVotes,
ipCap − ipVotes)`. -/
def specVotesRemaining (deviceCap ipCap deviceVotes ipVotes : Int) : Int :=
  min (deviceCap - deviceVotes) (ipCap - ipVotes)

/-! ## Helper lemmas -/

theorem find?_append_some {α} {p : α → Bool} {l₁ : List α} (l₂ : List α) {a : α}
    (h : l₁.find? p = some a) : (l₁ ++ l₂).find? p = some a := by
  rw [List.find?_append, h]
  rfl

theorem find?_map_fingerprint (f : VoteSession → VoteSession)
    (hfp : ∀ s, (f s).fingerprint = s.fingerprint) (l : List VoteSession) (fp : String) :
    (l.map f).find? (fun s => s.fingerprint == fp) =
      (l.find? (fun s => s.fingerprint == fp)).map f := by
  rw [List.find?_map]
  have hc : ((fun s => s.fingerprint == fp) ∘ f) = (fun s => s.fingerprint == fp) := by
    funext s
    simp [Function.comp, hfp]
  rw [hc]

theorem length_filter_append {α} (p : α → Bool) (l : List α) (a : α) :
    ((l ++ [a]).filter p).length =
      (l.filter p).length + (if p a then 1 else 0) := by
  rw [List.filter_append]
  by_cases h : p a <;> simp [List.filter_cons, h]

theorem total_votes_congr {db db' : DB} (hv : db'.votes = db.votes) (fp : String) :
    total_votes db' fp = total_votes db fp := by
  unfold total_votes; rw [hv]

theorem votes_from_ip_congr {db db' : DB} (hv : db'.votes = db.votes) (ip : String) :
    votes_from_ip db' ip = votes_from_ip db ip := by
  unfold votes_from_ip; rw [hv]

theorem pair_votes_congr {db db' : DB} (hv : db'.votes = db.votes) (fp c : String) :
    pair_votes db' fp c = pair_votes db' fp c := rfl

theorem has_voted_congr {db db' : DB} (hv : db'.votes = db.votes) (fp c : String) :
    has_voted db' fp c = has_voted db fp c := by
  unfold has_voted; rw [hv]

theorem pair_votes_eq_zero_of_not_has_voted {db : DB} {fp c : String}
    (h : has_voted db fp c = false) : pair_votes db fp c = 0 := by
  unfold has_voted at h
  unfold pair_votes
  rw [List.length_eq_zero, List.filter_eq_nil_iff]
  intro v hv hpv
  have : db.votes.any (fun v => v.fingerprint == fp && v.contestant == c) = true :=
    List.any_eq_true.mpr ⟨v, hv, hpv⟩
  rw [h] at this
  exact Bool.false_ne_true this

/-- `get_token_core` never touches the `votes` table. -/
theorem votes_get_token_core (db : DB) (fp ip ft : String) (now : Nat) :
    ((get_token_core db fp ip ft now).2).votes = db.votes := by
  unfold get_token_core
  cases sessionFor db fp <;> rfl

/-- `ipChangeCheck` never touches the `votes` table. -/
theorem votes_ipChangeCheck (m : Nat) (db : DB) (fp ip : String) :
    ((ipChangeCheck m db fp ip).2).votes = db.votes := by
  rcases hs : sessionFor db fp with _ | s
  · simp [ipChangeCheck, hs]
  rcases hip : s.ip_address with _ | old
  · simp [ipChangeCheck, hs, hip]
  by_cases h1 : old = "" ∨ old = ip
  · simp [ipChangeCheck, hs, hip, h1]
  by_cases h2 : m ≤ ip_change_count db fp <;>
    simp [ipChangeCheck, hs, hip, h1, h2]

/-- When `ipChangeCheck` does not block, the sessions table is unchanged. -/
theorem sessions_ipChangeCheck_false {m : Nat} {db : DB} {fp ip : String}
    (h : (ipChangeCheck m db fp ip).1 = false) :
    ((ipChangeCheck m db fp ip).2).sessions = db.sessions := by
  rcases hs : sessionFor db fp with _ | s
  · simp [ipChangeCheck, hs]
  rcases hip : s.ip_address with _ | old
  · simp [ipChangeCheck, hs, hip]
  by_cases h1 : old = "" ∨ old = ip
  · simp [ipChangeCheck, hs, hip, h1]
  by_cases h2 : m ≤ ip_change_count db fp
  · exfalso
    simp [ipChangeCheck, hs, hip, h1, h2] at h
  · simp [ipChangeCheck, hs, hip, h1, h2]

/-- When `ipChangeCheck` blocks, the only change to sessions is
`setSessionSuspicious`. -/
theorem sessions_ipChangeCheck_true {m : Nat} {db : DB} {fp ip : String}
    (h : (ipChangeCheck m db fp ip).1 = true) :
    ((ipChangeCheck m db fp ip).2).sessions = setSessionSuspicious db.sessions fp := by
  rcases hs : sessionFor db fp with _ | s
  · exfalso; simp [ipChangeCheck, hs] at h
  rcases hip : s.ip_address with _ | old
  · exfalso; simp [ipChangeCheck, hs, hip] at h
  by_cases h1 : old = "" ∨ old = ip
  · exfalso; simp [ipChangeCheck, hs, hip, h1] at h
  by_cases h2 : m ≤ ip_change_count db fp
  · simp [ipChangeCheck, hs, hip, h1, h2]
  · exfalso; simp [ipChangeCheck, hs, hip, h1, h2] at h

/-! ## The cap and duplicate invariants -/

/-- The ledger invariants of spec section 3: device cap, IP cap, and at most
one vote per (fingerprint, contestant). -/
def capsOK (db : DB) : Prop :=
  (∀ fp, total_votes db fp ≤ MAX_VOTES_PER_DEVICE) ∧
  (∀ ip, votes_from_ip db ip ≤ MAX_VOTES_PER_IP) ∧
  (∀ fp c, pair_votes db fp c ≤ 1)

theorem capsOK_congr {db db' : DB} (hv : db'.votes = db.votes) (h : capsOK db) :
    capsOK db' := by
  obtain ⟨h1, h2, h3⟩ := h
  refine ⟨fun fp => ?_, fun ip => ?_, fun fp c => ?_⟩
  · unfold total_votes
    rw [hv]
    exact h1 fp
  · unfold votes_from_ip
    rw [hv]
    exact h2 ip
  · unfold pair_votes
    rw [hv]
    exact h3 fp c

theorem total_votes_append_vote (db : DB) (v : VoteRow)
    (sess : List VoteSession) (fp : String) :
    total_votes { db with votes := db.votes ++ [v], sessions := sess } fp =
      total_votes db fp + (if v.fingerprint = fp then 1 else 0) := by
  show ((db.votes ++ [v]).filter (fun w => w.fingerprint == fp)).length = _
  rw [length_filter_append]
  by_cases h : v.fingerprint = fp <;> simp [total_votes, h]

theorem votes_from_ip_append_vote (db : DB) (v : VoteRow)
    (sess : List VoteSession) (ip : String) :
    votes_from_ip { db with votes := db.votes ++ [v], sessions := sess } ip =
      votes_from_ip db ip + (if v.ip_address = ip then 1 else 0) := by
  show ((db.votes ++ [v]).filter (fun w => w.ip_address == ip)).length = _
  rw [length_filter_append]
  by_cases h : v.ip_address = ip <;> simp [votes_from_ip, h]

theorem pair_votes_append_vote (db : DB) (v : VoteRow)
    (sess : List VoteSession) (fp c : String) :
    pair_votes { db with votes := db.votes ++ [v], sessions := sess } fp c =
      pair_votes db fp c + (if v.fingerprint = fp ∧ v.contestant = c then 1 else 0) := by
  show ((db.votes ++ [v]).filter
    (fun w => w.fingerprint == fp && w.contestant == c)).length = _
  rw [length_filter_append]
  by_cases h1 : v.fingerprint = fp
  · by_cases h2 : v.contestant = c <;> simp [pair_votes, h1, h2]
  · simp [pair_votes, h1]

theorem capsOK_post_vote_core (db : DB) (c fp ip : String) (tm : Bool)
    (h : capsOK db) : capsOK (post_vote_core db c fp ip tm).2 := by
  obtain ⟨h1, h2, h3⟩ := h
  unfold post_vote_core
  split_ifs with htm hdup hdev hip
  · exact ⟨h1, h2, h3⟩
  · exact ⟨h1, h2, h3⟩
  · exact ⟨h1, h2, h3⟩
  · exact ⟨h1, h2, h3⟩
  refine ⟨fun fp0 => ?_, fun ip0 => ?_, fun fp0 c0 => ?_⟩
  · rw [total_votes_append_vote]
    by_cases hfp : (⟨fp, c, ip⟩ : VoteRow).fingerprint = fp0
    · rw [if_pos hfp]
      have : total_votes db fp < MAX_VOTES_PER_DEVICE := Nat.lt_of_not_le hdev
      have hfp0 : fp0 = fp := hfp.symm
      rw [hfp0]
      omega
    · rw [if_neg hfp]
      simpa using h1 fp0
  · rw [votes_from_ip_append_vote]
    by_cases hip0 : (⟨fp, c, ip⟩ : VoteRow).ip_address = ip0
    · rw [if_pos hip0]
      have : votes_from_ip db ip < MAX_VOTES_PER_IP := Nat.lt_of_not_le hip
      have hip0e : ip0 = ip := hip0.symm
      rw [hip0e]
      omega
    · rw [if_neg hip0]
      simpa using h2 ip0
  · rw [pair_votes_append_vote]
    by_cases hpc : (⟨fp, c, ip⟩ : VoteRow).fingerprint = fp0 ∧
        (⟨fp, c, ip⟩ : VoteRow).contestant = c0
    · rw [if_pos hpc]
      obtain ⟨e1, e2⟩ := hpc
      have e1' : fp0 = fp := e1.symm
      have e2' : c0 = c := e2.symm
      rw [e1', e2']
      have hz : pair_votes db fp c = 0 :=
        pair_votes_eq_zero_of_not_has_voted (Bool.not_eq_true _ ▸ Bool.of_not_eq_true hdup)
      omega
    · rw [if_neg hpc]
      simpa using h3 fp0 c0

theorem capsOK_applyOp (db : DB) (op : Op) (h : capsOK db) :
    capsOK (applyOp db op) := by
  cases op with
  | tok v l ip ft now =>
    exact capsOK_congr (votes_get_token_core db _ ip ft now) h
  | vote c fp t ip now tm =>
    show capsOK (submitVote db c fp t ip now tm).2
    unfold submitVote
    by_cases hv : validateToken db t fp now = true
    · rw [if_pos hv]
      have hvotes : ((ipChangeCheck MAX_IP_CHANGES_ALLOWED db fp ip).2).votes = db.votes :=
        votes_ipChangeCheck _ _ _ _
      by_cases hb : (ipChangeCheck MAX_IP_CHANGES_ALLOWED db fp ip).1 = true
      · rw [if_pos hb]
        exact capsOK_congr hvotes h
      · rw [if_neg hb]
        exact capsOK_post_vote_core _ _ _ _ _ (capsOK_congr hvotes h)
    · rw [if_neg hv]
      exact h

theorem reachable_capsOK : ∀ db, Reachable db → capsOK db := by
  intro db h
  induction h with
  | init =>
    refine ⟨fun fp => ?_, fun ip => ?_, fun fp c => ?_⟩ <;>
      simp [total_votes, votes_from_ip, pair_votes, emptyDB]
  | step op h ih => exact capsOK_applyOp _ op ih

/-! ## Suspicion monotonicity machinery -/

theorem sessionFor_get_token_core {db : DB} (fp ip ft : String) (now : Nat)
    {fp0 : String} {s : VoteSession} (h : sessionFor db fp0 = some s) :
    sessionFor (get_token_core db fp ip ft now).2 fp0 = some s := by
  rcases hf : sessionFor db fp with _ | t
  · simp only [get_token_core, hf]
    exact find?_append_some _ h
  · simp only [get_token_core, hf]
    exact h

theorem find?_setSuspicious (l : List VoteSession) (fp fp0 : String) :
    (setSessionSuspicious l fp).find? (fun s => s.fingerprint == fp0) =
      (l.find? (fun s => s.fingerprint == fp0)).map
        (fun s => if s.fingerprint == fp then { s with is_suspicious := true } else s) := by
  unfold setSessionSuspicious
  apply find?_map_fingerprint
  intro s
  by_cases h : s.fingerprint == fp <;> simp [h]

theorem find?_increment (l : List VoteSession) (fp fp0 : String) :
    (increment_votes_used l fp).find? (fun s => s.fingerprint == fp0) =
      (l.find? (fun s => s.fingerprint == fp0)).map
        (fun s => if s.fingerprint == fp then { s with votes_used := s.votes_used + 1 } else s) := by
  unfold increment_votes_used
  apply find?_map_fingerprint
  intro s
  by_cases h : s.fingerprint == fp <;> simp [h]

/-- The sessions table after a `/vote` request is unchanged, or suspicion
was set for the request's fingerprint, or its vote counter was bumped. -/
theorem sessions_submitVote (db : DB) (c fp t ip : String) (now : Nat) (tm : Bool) :
    ((submitVote db c fp t ip now tm).2).sessions = db.sessions ∨
    ((submitVote db c fp t ip now tm).2).sessions = setSessionSuspicious db.sessions fp ∨
    ((submitVote db c fp t ip now tm).2).sessions = increment_votes_used db.sessions fp := by
  unfold submitVote
  by_cases hv : validateToken db t fp now = true
  · rw [if_pos hv]
    by_cases hb : (ipChangeCheck MAX_IP_CHANGES_ALLOWED db fp ip).1 = true
    · rw [if_pos hb]
      right; left
      exact sessions_ipChangeCheck_true hb
    · rw [if_neg hb]
      have hse : ((ipChangeCheck MAX_IP_CHANGES_ALLOWED db fp ip).2).sessions = db.sessions :=
        sessions_ipChangeCheck_false (Bool.of_not_eq_true hb)
      unfold post_vote_core
      split_ifs
      · left; exact hse
      · left; exact hse
      · left; exact hse
      · left; exact hse
      · right; right
        show increment_votes_used ((ipChangeCheck MAX_IP_CHANGES_ALLOWED db fp ip).2).sessions fp = _
        rw [hse]
  · rw [if_neg hv]
    left
    rfl

/-! ## Concrete example states -/

/-- A state whose fingerprint `f` and IP `1.1.1.1` both hold 3 votes,
with a valid token `t` for `f` expiring at time 100. -/
def capDB : DB :=
  ⟨[⟨"f", some "1.1.1.1", false, 3⟩],
   [⟨"f", "smith", "1.1.1.1"⟩, ⟨"f", "jones", "1.1.1.1"⟩, ⟨"f", "williams", "1.1.1.1"⟩],
   [], [("t", ⟨"f", 100⟩)]⟩

/-- A state where fingerprint `f` already voted for `smith`, with a valid
token `t`. -/
def dupDB : DB :=
  ⟨[⟨"f", some "1.1.1.1", false, 1⟩], [⟨"f", "smith", "1.1.1.1"⟩],
   [], [("t", ⟨"f", 100⟩)]⟩

/-- A state with an existing session for `f` whose stored token `t1` is
far from expiry (expires at 10000). -/
def rotDB : DB :=
  ⟨[⟨"f", some "1.1.1.1", false, 2⟩], [], [], [("t1", ⟨"f", 10000⟩)]⟩

/-- A state where fingerprint `f` (stored IP `2.2.2.2`) already has one
logged IP change. -/
def ipDB : DB :=
  ⟨[⟨"f", some "2.2.2.2", false, 0⟩], [], [⟨"f", "1.1.1.1", "2.2.2.2"⟩], []⟩

/-- A state where fingerprint `f` has a stored IP and no logged IP change. -/
def ipDB0 : DB :=
  ⟨[⟨"f", some "1.1.1.1", false, 0⟩], [], [], []⟩

/-- A state holding an already-suspicious session for `f`. -/
def susDB : DB := ⟨[⟨"f", none, true, 0⟩], [], [], []⟩

def susOp : Op := Op.vote "smith" "f" "t" "1.1.1.1" 0 false

/-- A stored client session whose token expires at 40000 ms. -/
def exClientStored : ClientSession := ⟨"t1", "f", some 40000, 1, 1, false⟩

/-- A freshly fetched client session. -/
def exClientFetched : ClientSession := ⟨"t2", "f", some 900000, 1, 1, false⟩

/-! ## Claim theorems -/

/-- C3: the fingerprint is a deterministic function of the device signature
(visitorId) alone — two computations from the same visitorId are
byte-identical, and the localId never influences the output of
`compute_fingerprint`. -/
theorem compute_fingerprint_visitor_only :
    ∀ (v l l1 l2 : String),
      compute_fingerprint v l = compute_fingerprint v l ∧
      compute_fingerprint v l1 = compute_fingerprint v l2 :=
  fun _ _ _ _ => ⟨rfl, rfl⟩

/-- C7: `validateToken(token, fingerprint)` returns true exactly when the
token is found in the store, is unexpired at the time of the check, and its
bound fingerprint equals the request's fingerprint; on any missing record,
mismatch or expiry it returns false — it fails closed, never open. -/
theorem validateToken_fails_closed :
    ∀ (db : DB) (token fp : String) (now : Nat),
      validateToken db token fp now = true ↔
        ∃ t, lookupToken db token = some t ∧ now < t.exp ∧ t.fp = fp := by
  intro db token fp now
  unfold validateToken
  cases h : lookupToken db token with
  | none => simp
  | some t => simp [h]

/-- C9: the frontend's displayed votes-remaining
`maxVotes − max(deviceVotes, ipVotes)` coincides with the spec's server-side
formula `min(deviceCap − deviceVotes, ipCap − ipVotes)` for all non-negative
counts when `deviceCap = ipCap = maxVotes = 3`. -/
theorem appVotesRemaining_eq_spec :
    ∀ (d i : Int), 0 ≤ d → 0 ≤ i →
      appVotesRemaining (some d) (some i) = specVotesRemaining 3 3 d i := by
  intro d i hd hi
  unfold appVotesRemaining specVotesRemaining
  simp only [Option.getD_some]
  omega

/-- Witness for the C9 theorem at deviceVotes = 1, ipVotes = 2. -/
theorem appVotesRemaining_eq_spec_witness :
    appVotesRemaining (some 1) (some 2) = specVotesRemaining 3 3 1 2 :=
  appVotesRemaining_eq_spec 1 2 (by decide) (by decide)

/-- C10: `ensureValidToken` discards the stored session and fetches a fresh
one whenever the expiry timestamp is missing or at most 30 seconds in the
future (30000 ms buffer), and otherwise returns the stored session
unchanged. -/
theorem ensureValidToken_refresh_policy :
    ∀ (stored : Option ClientSession) (now : Nat) (fetched : ClientSession),
      (stored = none → ensureValidToken stored now fetched = fetched) ∧
      (∀ s, stored = some s →
        ((s.expires_at = none → ensureValidToken stored now fetched = fetched) ∧
         (∀ e, s.expires_at = some e → e ≤ now + 30000 →
            ensureValidToken stored now fetched = fetched) ∧
         (∀ e, s.expires_at = some e → now + 30000 < e →
            ensureValidToken stored now fetched = s))) := by
  intro stored now fetched
  constructor
  · rintro rfl
    rfl
  · rintro s rfl
    refine ⟨?_, ?_, ?_⟩
    · intro he
      show (if isTokenExpired s.expires_at now = true then fetched else s) = fetched
      rw [he]
      rfl
    · intro e he hle
      show (if isTokenExpired s.expires_at now = true then fetched else s) = fetched
      rw [he]
      have hcond : isTokenExpired (some e) now = true := by
        simp only [isTokenExpired, decide_eq_true_eq]
        omega
      rw [if_pos hcond]
    · intro e he hgt
      show (if isTokenExpired s.expires_at now = true then fetched else s) = s
      rw [he]
      have hcond : ¬ (isTokenExpired (some e) now = true) := by
        simp only [isTokenExpired, decide_eq_true_eq]
        omega
      rw [if_neg hcond]

/-- Witness for the C10 theorem: at 0 ms the stored session (expiry
40000 ms, more than 30 s away) is kept; at 20000 ms it is within the 30 s
buffer and a fresh session is fetched. -/
theorem ensureValidToken_refresh_policy_witness :
    ensureValidToken (some exClientStored) 0 exClientFetched = exClientStored ∧
    ensureValidToken (some exClientStored) 20000 exClientFetched = exClientFetched :=
  ⟨((ensureValidToken_refresh_policy (some exClientStored) 0 exClientFetched).2
      exClientStored rfl).2.2 40000 rfl (by decide),
   ((ensureValidToken_refresh_policy (some exClientStored) 20000 exClientFetched).2
      exClientStored rfl).2.1 40000 rfl (by decide)⟩

/-- C4 counterexample: in `rotDB` the stored token `t1` for session `f` is
still valid at time 0 (`validateToken` accepts it), yet a second `/token`
call returns the freshly generated token `t2`, not the unchanged `t1` —
`get_token` rotates on every call, not only on expiry. -/
theorem get_token_rotation_counterexample :
    validateToken rotDB "t1" "f" 0 = true ∧
    (get_token_core rotDB "f" "1.1.1.1" "t2" 0).1.token = "t2" ∧
    (get_token_core rotDB "f" "1.1.1.1" "t2" 0).1.token ≠ "t1" := by
  decide

/-- C4 (amended): `get_token` returns the freshly generated random token on
every call regardless of the stored token's expiry, while preserving the
existing session's vote counter; idempotency within the 30-second-buffered
TTL holds client-side in `ensureValidToken`, which returns the stored
session unchanged whenever it is not about to expire. -/
theorem token_issue_fresh_and_client_idempotent :
    (∀ (db : DB) (fp ip ft : String) (now : Nat),
      (get_token_core db fp ip ft now).1.token = ft ∧
      (∀ s, sessionFor db fp = some s →
        (get_token_core db fp ip ft now).1.votes_used = s.votes_used)) ∧
    (∀ (s : ClientSession) (now : Nat) (fetched : ClientSession),
      isTokenExpired s.expires_at now = false →
      ensureValidToken (some s) now fetched = s) := by
  constructor
  · intro db fp ip ft now
    constructor
    · rcases hf : sessionFor db fp with _ | t <;> simp [get_token_core, hf]
    · intro s hsf
      simp [get_token_core, hsf]
  · intro s now fetched hexp
    show (if isTokenExpired s.expires_at now = true then fetched else s) = s
    rw [hexp]
    rfl

/-- Witness for the C4 amended theorem at a concrete state. -/
theorem token_issue_fresh_witness :
    (get_token_core rotDB "f" "1.1.1.1" "t3" 0).1.token = "t3" ∧
    ensureValidToken (some exClientStored) 5000 exClientFetched = exClientStored :=
  ⟨(token_issue_fresh_and_client_idempotent.1 rotDB "f" "1.1.1.1" "t3" 0).1,
   token_issue_fresh_and_client_idempotent.2 exClientStored 5000 exClientFetched
     (by decide)⟩

/-- C5 counterexample: in `ipDB` (one logged change, limit 1) a touch from
`3.3.3.3` differs from the stored IP `2.2.2.2`, yet no IPChangeRecord is
appended for that transition — the `ip_change_logs` table is unchanged —
while `is_suspicious` is set to true even though the logged-change count (1)
does not exceed `MAX_IP_CHANGES_ALLOWED` (1). -/
theorem ip_change_blocked_not_logged_counterexample :
    (ipChangeCheck MAX_IP_CHANGES_ALLOWED ipDB "f" "3.3.3.3").1 = true ∧
    ((ipChangeCheck MAX_IP_CHANGES_ALLOWED ipDB "f" "3.3.3.3").2).ip_changes =
      ipDB.ip_changes ∧
    sessionFor (ipChangeCheck MAX_IP_CHANGES_ALLOWED ipDB "f" "3.3.3.3").2 "f" =
      some ⟨"f", some "2.2.2.2", true, 0⟩ ∧
    ip_change_count ipDB "f" = 1 ∧
    ¬ (MAX_IP_CHANGES_ALLOWED < ip_change_count ipDB "f") := by
  decide

/-- C5 (amended): on a session touch whose inbound IP differs from the
stored IP, if the fingerprint's logged IP-change count is below the limit,
exactly one IPChangeRecord(old, new) is appended and the sessions table —
hence the suspicion flag — is untouched; once the count has reached the
limit, no record is appended, `is_suspicious` is set for the fingerprint,
and the touch is blocked.  With the default limit 1, the first change
leaves `isSuspicious` false and the second sets it true. -/
theorem ip_change_tracking :
    ∀ (m : Nat) (db : DB) (fp ip : String) (s : VoteSession) (old : String),
      sessionFor db fp = some s → s.ip_address = some old → old ≠ "" → old ≠ ip →
      ((ip_change_count db fp < m →
          ipChangeCheck m db fp ip =
            (false, { db with ip_changes := db.ip_changes ++ [⟨fp, old, ip⟩] })) ∧
       (m ≤ ip_change_count db fp →
          ipChangeCheck m db fp ip =
            (true, { db with sessions := setSessionSuspicious db.sessions fp }))) := by
  intro m db fp ip s old hs hip hne hneq
  have h1 : ¬ (old = "" ∨ old = ip) := by
    rintro (h | h)
    · exact hne h
    · exact hneq h
  constructor
  · intro hlt
    have h2 : ¬ m ≤ ip_change_count db fp := Nat.not_le_of_lt hlt
    simp [ipChangeCheck, hs, hip, h1, h2]
  · intro hge
    simp [ipChangeCheck, hs, hip, h1, hge]

/-- Witness for the C5 amended theorem: the first change (count 0 < 1)
appends exactly one record and blocks nothing; at count 1 the next change
blocks and flags the session. -/
theorem ip_change_tracking_witness :
    ipChangeCheck 1 ipDB0 "f" "2.2.2.2" =
      (false, { ipDB0 with ip_changes := [⟨"f", "1.1.1.1", "2.2.2.2"⟩] }) ∧
    ipChangeCheck 1 ipDB "f" "3.3.3.3" =
      (true, { ipDB with sessions := setSessionSuspicious ipDB.sessions "f" }) :=
  ⟨(ip_change_tracking 1 ipDB0 "f" "2.2.2.2" ⟨"f", some "1.1.1.1", false, 0⟩
      "1.1.1.1" (by decide) rfl (by decide) (by decide)).1 (by decide),
   (ip_change_tracking 1 ipDB "f" "3.3.3.3" ⟨"f", some "2.2.2.2", false, 0⟩
      "2.2.2.2" (by decide) rfl (by decide) (by decide)).2 (by decide)⟩

/-- C8 counterexample: in `dupDB` the submission of `smith` by `f` is both a
duplicate (a `smith` vote by `f` exists) and over the rate-limit threshold
(`tooMany = true`), and the result is `RateLimited`, not `DuplicateVote` —
`post_vote` checks the rate limiter before the duplicate check. -/
theorem rate_limit_before_duplicate_counterexample :
    validateToken dupDB "t" "f" 50 = true ∧
    has_voted dupDB "f" "smith" = true ∧
    (submitVote dupDB "smith" "f" "t" "1.1.1.1" 50 true).1 = VoteResult.rateLimited ∧
    (submitVote dupDB "smith" "f" "t" "1.1.1.1" 50 true).1 ≠ VoteResult.duplicateVote := by
  decide

/-- C8 (amended): `post_vote` evaluates its checks in the order token
validity, IP-change blocking, rate limit, duplicate, device cap, and the
first failing check determines the returned error; in particular a
submission that is both a duplicate and over the rate-limit threshold
returns `RateLimited`. -/
theorem post_vote_check_order :
    ∀ (db : DB) (c fp token ip : String) (now : Nat) (tm : Bool),
      (validateToken db token fp now = false →
        submitVote db c fp token ip now tm = (VoteResult.invalidToken, db)) ∧
      (validateToken db token fp now = true →
        (ipChangeCheck MAX_IP_CHANGES_ALLOWED db fp ip).1 = false →
        ((tm = true →
            (submitVote db c fp token ip now tm).1 = VoteResult.rateLimited) ∧
         (tm = false → has_voted db fp c = true →
            (submitVote db c fp token ip now tm).1 = VoteResult.duplicateVote) ∧
         (tm = false → has_voted db fp c = false →
            MAX_VOTES_PER_DEVICE ≤ total_votes db fp →
            (submitVote db c fp token ip now tm).1 = VoteResult.limitReached))) := by
  intro db c fp token ip now tm
  constructor
  · intro hv
    unfold submitVote
    rw [if_neg (by simp [hv])]
  · intro hv hb
    have hvotes : ((ipChangeCheck MAX_IP_CHANGES_ALLOWED db fp ip).2).votes = db.votes :=
      votes_ipChangeCheck _ _ _ _
    refine ⟨?_, ?_, ?_⟩
    · rintro rfl
      unfold submitVote
      rw [if_pos hv, if_neg (by simp [hb])]
      unfold post_vote_core
      rw [if_pos rfl]
    · rintro rfl hdup
      unfold submitVote
      rw [if_pos hv, if_neg (by simp [hb])]
      unfold post_vote_core
      rw [if_neg (by simp)]
      rw [if_pos (by rw [has_voted_congr hvotes]; exact hdup)]
    · rintro rfl hdup hcap
      unfold submitVote
      rw [if_pos hv, if_neg (by simp [hb])]
      unfold post_vote_core
      rw [if_neg (by simp)]
      rw [if_neg (by rw [has_voted_congr hvotes]; simp [hdup])]
      rw [if_pos (by rw [total_votes_congr hvotes]; exact hcap)]

/-- Witness for the C8 amended theorem at concrete states: each of the four
check outcomes fires at a state where its check is the first to fail. -/
theorem post_vote_check_order_witness :
    submitVote dupDB "smith" "g" "t" "1.1.1.1" 50 false = (VoteResult.invalidToken, dupDB) ∧
    (submitVote dupDB "jones" "f" "t" "1.1.1.1" 50 true).1 = VoteResult.rateLimited ∧
    (submitVote dupDB "smith" "f" "t" "1.1.1.1" 50 false).1 = VoteResult.duplicateVote ∧
    (submitVote capDB "davis" "f" "t" "1.1.1.1" 50 false).1 = VoteResult.limitReached :=
  ⟨(post_vote_check_order dupDB "smith" "g" "t" "1.1.1.1" 50 false).1 (by decide),
   ((post_vote_check_order dupDB "jones" "f" "t" "1.1.1.1" 50 true).2
      (by decide) (by decide)).1 rfl,
   ((post_vote_check_order dupDB "smith" "f" "t" "1.1.1.1" 50 false).2
      (by decide) (by decide)).2.1 rfl (by decide),
   ((post_vote_check_order capDB "davis" "f" "t" "1.1.1.1" 50 false).2
      (by decide) (by decide)).2.2 rfl (by decide) (by decide)⟩

/-- C1: in every state reachable by any sequence of `/token` and `/vote`
operations, the number of Vote rows per fingerprint never exceeds
`MAX_VOTES_PER_DEVICE` (3) and the number per IP never exceeds
`MAX_VOTES_PER_IP` (3), as two independent ceilings; a submission over
either cap (that reaches the cap checks) is rejected with `LimitReached`
and appends no Vote row. -/
theorem vote_caps_two_ceilings :
    (∀ db, Reachable db →
      (∀ fp, total_votes db fp ≤ MAX_VOTES_PER_DEVICE) ∧
      (∀ ip, votes_from_ip db ip ≤ MAX_VOTES_PER_IP)) ∧
    (∀ (db : DB) (c fp token ip : String) (now : Nat),
      validateToken db token fp now = true →
      (ipChangeCheck MAX_IP_CHANGES_ALLOWED db fp ip).1 = false →
      has_voted db fp c = false →
      (MAX_VOTES_PER_DEVICE ≤ total_votes db fp ∨
        MAX_VOTES_PER_IP ≤ votes_from_ip db ip) →
      (submitVote db c fp token ip now false).1 = VoteResult.limitReached ∧
      ((submitVote db c fp token ip now false).2).votes = db.votes) := by
  constructor
  · intro db h
    obtain ⟨h1, h2, _⟩ := reachable_capsOK db h
    exact ⟨h1, h2⟩
  · intro db c fp token ip now hv hb hdup hcap
    have hvotes : ((ipChangeCheck MAX_IP_CHANGES_ALLOWED db fp ip).2).votes = db.votes :=
      votes_ipChangeCheck _ _ _ _
    unfold submitVote
    rw [if_pos hv, if_neg (by simp [hb])]
    unfold post_vote_core
    rw [if_neg (by simp)]
    rw [if_neg (by rw [has_voted_congr hvotes]; simp [hdup])]
    rcases hcap with hc | hc
    · rw [if_pos (by rw [total_votes_congr hvotes]; exact hc)]
      exact ⟨rfl, hvotes⟩
    · by_cases hdev : MAX_VOTES_PER_DEVICE ≤
          total_votes (ipChangeCheck MAX_IP_CHANGES_ALLOWED db fp ip).2 fp
      · rw [if_pos hdev]
        exact ⟨rfl, hvotes⟩
      · rw [if_neg hdev, if_pos (by rw [votes_from_ip_congr hvotes]; exact hc)]
        exact ⟨rfl, hvotes⟩

/-- Witness for the C1 theorem: the empty reachable state satisfies the
device cap, and in `capDB` (3 votes on both scopes) a further vote by `f`
from `1.1.1.1` is rejected with `LimitReached`. -/
theorem vote_caps_two_ceilings_witness :
    total_votes emptyDB "f" ≤ MAX_VOTES_PER_DEVICE ∧
    (submitVote capDB "brown" "f" "t" "1.1.1.1" 50 false).1 = VoteResult.limitReached :=
  ⟨(vote_caps_two_ceilings.1 emptyDB Reachable.init).1 "f",
   (vote_caps_two_ceilings.2 capDB "brown" "f" "t" "1.1.1.1" 50
      (by decide) (by decide) (by decide) (by decide)).1⟩

/-- C2: every reachable state holds at most one Vote row per
(fingerprint, contestant), and a submission for an already-voted pair (that
reaches the duplicate check) returns `DuplicateVote` leaving the ledger
unchanged — in particular `votes_remaining` is the same before and after. -/
theorem one_vote_per_pair_and_duplicate_rejected :
    (∀ db, Reachable db → ∀ fp c, pair_votes db fp c ≤ 1) ∧
    (∀ (db : DB) (c fp token ip : String) (now : Nat),
      validateToken db token fp now = true →
      (ipChangeCheck MAX_IP_CHANGES_ALLOWED db fp ip).1 = false →
      has_voted db fp c = true →
      (submitVote db c fp token ip now false).1 = VoteResult.duplicateVote ∧
      ((submitVote db c fp token ip now false).2).votes = db.votes ∧
      votes_remaining (submitVote db c fp token ip now false).2 fp ip =
        votes_remaining db fp ip) := by
  constructor
  · intro db h
    exact (reachable_capsOK db h).2.2
  · intro db c fp token ip now hv hb hdup
    have hvotes : ((ipChangeCheck MAX_IP_CHANGES_ALLOWED db fp ip).2).votes = db.votes :=
      votes_ipChangeCheck _ _ _ _
    unfold submitVote
    rw [if_pos hv, if_neg (by simp [hb])]
    unfold post_vote_core
    rw [if_neg (by simp)]
    rw [if_pos (by rw [has_voted_congr hvotes]; exact hdup)]
    refine ⟨rfl, hvotes, ?_⟩
    unfold votes_remaining
    rw [total_votes_congr hvotes, votes_from_ip_congr hvotes]

/-- Witness for the C2 theorem: the empty reachable state has at most one
`(f, smith)` row, and re-submitting `smith` in `dupDB` yields
`DuplicateVote` with `votes_remaining` unchanged. -/
theorem one_vote_per_pair_witness :
    pair_votes emptyDB "f" "smith" ≤ 1 ∧
    (submitVote dupDB "smith" "f" "t" "1.1.1.1" 60 false).1 = VoteResult.duplicateVote ∧
    votes_remaining (submitVote dupDB "smith" "f" "t" "1.1.1.1" 60 false).2 "f" "1.1.1.1" =
      votes_remaining dupDB "f" "1.1.1.1" :=
  ⟨one_vote_per_pair_and_duplicate_rejected.1 emptyDB Reachable.init "f" "smith",
   (one_vote_per_pair_and_duplicate_rejected.2 dupDB "smith" "f" "t" "1.1.1.1" 60
      (by decide) (by decide) (by decide)).1,
   (one_vote_per_pair_and_duplicate_rejected.2 dupDB "smith" "f" "t" "1.1.1.1" 60
      (by decide) (by decide) (by decide)).2.2⟩

/-- C6: the suspicion flag is monotonic non-decreasing — no modelled
operation (`/token` issuance or `/vote` with its IP-mobility tracking, rate
limiting and cap checks) ever turns a session's `is_suspicious` from true
back to false. -/
theorem suspicion_monotonic :
    ∀ (op : Op) (db : DB) (fp0 : String) (s s' : VoteSession),
      sessionFor db fp0 = some s →
      sessionFor (applyOp db op) fp0 = some s' →
      s.is_suspicious = true → s'.is_suspicious = true := by
  intro op db fp0 s s' h1 h2 hs
  cases op with
  | tok v l ip ft now =>
    have h3 : sessionFor (applyOp db (Op.tok v l ip ft now)) fp0 = some s :=
      sessionFor_get_token_core _ ip ft now h1
    rw [h3] at h2
    injection h2 with h2
    rw [← h2]
    exact hs
  | vote c fp t ip now tm =>
    rcases sessions_submitVote db c fp t ip now tm with he | he | he
    · have h3 : sessionFor (applyOp db (Op.vote c fp t ip now tm)) fp0 =
          sessionFor db fp0 := by
        unfold sessionFor
        rw [show (applyOp db (Op.vote c fp t ip now tm)).sessions = db.sessions from he]
      rw [h3, h1] at h2
      injection h2 with h2
      rw [← h2]
      exact hs
    · have h3 : sessionFor (applyOp db (Op.vote c fp t ip now tm)) fp0 =
          (sessionFor db fp0).map
            (fun u => if u.fingerprint == fp then { u with is_suspicious := true } else u) := by
        unfold sessionFor
        rw [show (applyOp db (Op.vote c fp t ip now tm)).sessions =
              setSessionSuspicious db.sessions fp from he]
        exact find?_setSuspicious _ _ _
      rw [h3, h1] at h2
      simp only [Option.map_some'] at h2
      injection h2 with h2
      rw [← h2]
      by_cases hf : s.fingerprint == fp <;> simp [hf, hs]
    · have h3 : sessionFor (applyOp db (Op.vote c fp t ip now tm)) fp0 =
          (sessionFor db fp0).map
            (fun u => if u.fingerprint == fp then { u with votes_used := u.votes_used + 1 } else u) := by
        unfold sessionFor
        rw [show (applyOp db (Op.vote c fp t ip now tm)).sessions =
              increment_votes_used db.sessions fp from he]
        exact find?_increment _ _ _
      rw [h3, h1] at h2
      simp only [Option.map_some'] at h2
      injection h2 with h2
      rw [← h2]
      by_cases hf : s.fingerprint == fp <;> simp [hf, hs]

/-- Witness for the C6 theorem: a `/vote` touch on `susDB` leaves the
already-suspicious session for `f` suspicious. -/
theorem suspicion_monotonic_witness :
    sessionFor susDB "f" = some ⟨"f", none, true, 0⟩ ∧
    sessionFor (applyOp susDB susOp) "f" = some ⟨"f", none, true, 0⟩ ∧
    (VoteSession.mk "f" none true 0).is_suspicious = true :=
  ⟨by decide, by decide,
   suspicion_monotonic susOp susDB "f" ⟨"f", none, true, 0⟩ ⟨"f", none, true, 0⟩
     (by decide) (by decide) (by decide)⟩

end VotingSystem
